import Mathlib

/-!
Verification of the `llama-ui` calculator example workflow
(`packages/server-py/test_workflows/basic_worklfow.py`) and of the
workflow engine it exercises.

The repository itself contains only the demo workflow and the server entry
point; the step-based event-driven engine (event routing, construction-time
validation, run context, progress streaming) lives in an external package.
Following the specification, the engine is modelled from the spec (dispatch
loop of section 4.2, validation of section 4.4, streaming of section 5),
while every event class and step body is translated directly from the
Python source.

Numeric conventions: Python integers are `Int`; the result of Python true
division (`/`) is modelled as an exact rational (`ℚ`), so values produced by
the four arithmetic branches all live in `ℚ`.
-/

namespace LlamaUI

/-- The `Operation` enum of the source: members SUM, SUBTRACT, MULTIPLY,
DIVIDE with string values "sum", "subtract", "multiply", "divide". -/
inductive Operation where
  | SUM
  | SUBTRACT
  | MULTIPLY
  | DIVIDE
  deriving DecidableEq

/-- The string value attached to each `Operation` member in the source. -/
def Operation.value : Operation → String
  | .SUM => "sum"
  | .SUBTRACT => "subtract"
  | .MULTIPLY => "multiply"
  | .DIVIDE => "divide"

/-- `CalculatorInput(StartEvent)`: fields `a: int`, `b: int`,
`operation: Operation`. -/
structure CalculatorInput where
  a : Int
  b : Int
  operation : Operation
  deriving DecidableEq

/-- `ProgressEvent(Event)`: fields `step: str`, `progress: int`,
`message: str`. -/
structure ProgressEvent where
  step : String
  progress : Int
  message : String
  deriving DecidableEq

/-- `CalculateRequestEvent(Event)`: the class declares only `a: int` and
`b: int`, but the `initialize` step constructs it with an extra
`operation=` keyword, which the framework's `Event` base class carries as
an undeclared dynamic field and `sum` reads back.  The runtime payload is
therefore modelled with all three fields. -/
structure CalculateRequestEvent where
  a : Int
  b : Int
  operation : Operation
  deriving DecidableEq

/-- The field names that the `CalculateRequestEvent` class declaration
actually lists (source lines 26-28): only `a` and `b`. -/
def CalculateRequestEvent.declaredFields : List String := ["a", "b"]

/-- `CalculateResponseEvent(Event)`: declares `result: int`; the runtime
value produced by the `sum` step can be a non-integer rational (true
division), so the carried value is modelled in `ℚ`. -/
structure CalculateResponseEvent where
  result : ℚ
  deriving DecidableEq

/-- The (field name, annotated type) pairs of the `CalculateResponseEvent`
class declaration (source lines 30-31). -/
def CalculateResponseEvent.declaredFields : List (String × String) :=
  [("result", "int")]

/-- `CalculatorOutput(StopEvent)`: declares a single field named `results`
(note the trailing `s`). -/
structure CalculatorOutput where
  results : ℚ
  deriving DecidableEq

/-- The caller-visible payload of the stop event: serialization by declared
field name, as the server returns it across the process boundary. -/
def CalculatorOutput.payload (o : CalculatorOutput) : List (String × ℚ) :=
  [("results", o.results)]

/-- The event kinds (discriminants) that participate in dispatch for the
calculator workflow.  `ProgressEvent` is not dispatched: it only travels on
the context's progress stream. -/
inductive EventKind where
  | calculatorInput
  | calculateRequest
  | calculateResponse
  | calculatorOutput
  deriving DecidableEq

/-- A dispatchable event of the calculator workflow, tagged by kind. -/
inductive WfEvent where
  | input (ev : CalculatorInput)
  | request (ev : CalculateRequestEvent)
  | response (ev : CalculateResponseEvent)
  | output (ev : CalculatorOutput)
  deriving DecidableEq

/-- The discriminant of a dispatchable event. -/
def WfEvent.kind : WfEvent → EventKind
  | .input _ => .calculatorInput
  | .request _ => .calculateRequest
  | .response _ => .calculateResponse
  | .output _ => .calculatorOutput

/-- An error raised inside a step body, with its original cause recorded. -/
structure StepError where
  cause : String
  deriving DecidableEq

/-- The Python `ZeroDivisionError` raised by `ev.a / ev.b` when `ev.b == 0`. -/
def zeroDivErr : StepError := ⟨"ZeroDivisionError: division by zero"⟩

/-- Modelled from the spec: the per-run Context of section 4.3 owns the
ordered progress-event stream (`write_event_to_stream` appends) and a
run-scoped string-keyed mapping (`get`/`set`), created fresh per run. -/
structure Ctx where
  stream : List ProgressEvent
  kv : List (String × String)
  deriving DecidableEq

/-- A fresh context, as allocated at the start of a run. -/
def Ctx.empty : Ctx := ⟨[], []⟩

/-- `ctx.write_event_to_stream(ev)`: append to the run's progress stream. -/
def Ctx.writeEventToStream (ctx : Ctx) (p : ProgressEvent) : Ctx :=
  { ctx with stream := ctx.stream ++ [p] }

/-- The `initialize` step (Python `CalculatorWorkflow.initialize`): writes
`ProgressEvent(step="start", progress=10, message="Starting sum workflow")`
to the stream and returns
`CalculateRequestEvent(a=ev.a, b=ev.b, operation=ev.operation)`. -/
def CalculatorWorkflow.initializeStep (ctx : Ctx) (ev : CalculatorInput) :
    Ctx × WfEvent :=
  (ctx.writeEventToStream ⟨"start", 10, "Starting sum workflow"⟩,
   .request ⟨ev.a, ev.b, ev.operation⟩)

/-- The `sum` step (Python `CalculatorWorkflow.sum`): writes
`ProgressEvent(step="calculate", progress=50, message="Calculating result")`
to the stream, then branches on `ev.operation`: `+`, `-`, `*`, or true
division `/` (which raises `ZeroDivisionError` when `ev.b == 0`), and
returns `CalculateResponseEvent(result=result)`. -/
def CalculatorWorkflow.sumStep (ctx : Ctx) (ev : CalculateRequestEvent) :
    Ctx × Except StepError WfEvent :=
  let c := ctx.writeEventToStream ⟨"calculate", 50, "Calculating result"⟩
  match ev.operation with
  | .SUM => (c, .ok (.response ⟨((ev.a + ev.b : Int) : ℚ)⟩))
  | .SUBTRACT => (c, .ok (.response ⟨((ev.a - ev.b : Int) : ℚ)⟩))
  | .MULTIPLY => (c, .ok (.response ⟨((ev.a * ev.b : Int) : ℚ)⟩))
  | .DIVIDE =>
      if ev.b = 0 then (c, .error zeroDivErr)
      else (c, .ok (.response ⟨(ev.a : ℚ) / (ev.b : ℚ)⟩))

/-- The `finalize` step (Python `CalculatorWorkflow.finalize`): returns
`CalculatorOutput(results=ev.result)` without touching the context. -/
def CalculatorWorkflow.finalizeStep (ctx : Ctx) (ev : CalculateResponseEvent) :
    Ctx × WfEvent :=
  (ctx, .output ⟨ev.result⟩)

/-- The result value the `sum` step computes for each operation. -/
def calcResult (a b : Int) : Operation → ℚ
  | .SUM => ((a + b : Int) : ℚ)
  | .SUBTRACT => ((a - b : Int) : ℚ)
  | .MULTIPLY => ((a * b : Int) : ℚ)
  | .DIVIDE => (a : ℚ) / (b : ℚ)

/-- The static declaration of one step: its name, its declared input event
kind and its declared output event kind(s), read off the `@step` method
signatures. -/
structure StepDecl where
  name : String
  inputKind : EventKind
  outputKinds : List EventKind
  deriving DecidableEq

/-- The three step declarations of `CalculatorWorkflow`, read off the type
annotations of the Python methods. -/
def calculatorSteps : List StepDecl :=
  [⟨"initialize", .calculatorInput, [.calculateRequest]⟩,
   ⟨"sum", .calculateRequest, [.calculateResponse]⟩,
   ⟨"finalize", .calculateResponse, [.calculatorOutput]⟩]

/-- The dispatchable event kinds declared by the calculator workflow. -/
def allKinds : List EventKind :=
  [.calculatorInput, .calculateRequest, .calculateResponse, .calculatorOutput]

/-- Whether a kind is a start kind (its class extends `StartEvent`):
only `CalculatorInput` does. -/
def isStartKind : EventKind → Bool
  | .calculatorInput => true
  | _ => false

/-- Whether a kind is a stop kind (its class extends `StopEvent`):
only `CalculatorOutput` does. -/
def isStopKind : EventKind → Bool
  | .calculatorOutput => true
  | _ => false

/-- Boolean duplicate-freedom test on a list. -/
def nodupB [DecidableEq α] : List α → Bool
  | [] => true
  | x :: xs => !(xs.contains x) && nodupB xs

/-- Modelled from the spec: construction-time validation of section 4.4
(the framework's registration-time checks are not in the repository
source): every declared step's input kind is unique among steps, and
exactly one start kind and one stop kind exist; ambiguity is rejected with
an ambiguous-dispatch error. -/
def validateWorkflow (steps : List StepDecl) (kinds : List EventKind) :
    Except String Unit :=
  if !nodupB (steps.map (fun s => s.inputKind)) then
    .error "ambiguous dispatch: duplicate step input kind"
  else if (kinds.filter (fun k => isStartKind k)).length ≠ 1 then
    .error "workflow must declare exactly one start event kind"
  else if (kinds.filter (fun k => isStopKind k)).length ≠ 1 then
    .error "workflow must declare exactly one stop event kind"
  else .ok ()

/-- Modelled from the spec: `WorkflowServer.add_workflow(name, workflow)`
(section 4.5; the server implementation is not in the repository source):
validates the definition and, on success, records it in the registry. -/
def addWorkflow (registry : List (String × List StepDecl)) (name : String)
    (steps : List StepDecl) (kinds : List EventKind) :
    Except String (List (String × List StepDecl)) :=
  match validateWorkflow steps kinds with
  | .error e => .error e
  | .ok _ => .ok (registry ++ [(name, steps)])

/-- A run-level failure, following the error taxonomy of section 7. -/
inductive RunError where
  | unroutable (k : EventKind)
  | contractViolation (expected got : EventKind)
  | incomplete
  | fuelExhausted
  | stepFailure (e : StepError)
  deriving DecidableEq

/-- Modelled from the spec: one iteration of the dispatcher body of
section 4.2 — look up the step whose declared input kind matches the
event's kind (unroutable-event error if none), invoke it with (Context,
event) (a raise becomes a step-execution failure), and validate the
returned event against the producing step's declared output kind
(contract-violation error on mismatch). -/
def dispatchOne (ctx : Ctx) (e : WfEvent) : Ctx × Except RunError WfEvent :=
  match e with
  | .input iv =>
      let r := CalculatorWorkflow.initializeStep ctx iv
      if r.2.kind = EventKind.calculateRequest then (r.1, .ok r.2)
      else (r.1, .error (.contractViolation .calculateRequest r.2.kind))
  | .request rv =>
      match CalculatorWorkflow.sumStep ctx rv with
      | (c, .error err) => (c, .error (.stepFailure err))
      | (c, .ok out) =>
          if out.kind = EventKind.calculateResponse then (c, .ok out)
          else (c, .error (.contractViolation .calculateResponse out.kind))
  | .response sv =>
      let r := CalculatorWorkflow.finalizeStep ctx sv
      if r.2.kind = EventKind.calculatorOutput then (r.1, .ok r.2)
      else (r.1, .error (.contractViolation .calculatorOutput r.2.kind))
  | .output _ => (ctx, .error (.unroutable .calculatorOutput))

/-- Modelled from the spec: the dispatch loop of section 4.2 — repeatedly
select the oldest pending event, dispatch it, stop successfully when a
returned event is of the stop kind (discarding any further pending
events), append other returned events to the pending set, and fail with an
incomplete-workflow error when the pending set empties without a stop
event.  `fuel` bounds the number of iterations (the spec's loop is
unbounded; `fuelExhausted` marks the artificial cutoff and is shown below
never to occur for fuel at least 3).  Returns the final context, the
number of step invocations performed, and the run's result. -/
def runLoop : Nat → Ctx → List WfEvent → Nat →
    Ctx × Nat × Except RunError CalculatorOutput
  | 0, ctx, _, invoked => (ctx, invoked, .error .fuelExhausted)
  | Nat.succ fuel, ctx, pending, invoked =>
      match pending with
      | [] => (ctx, invoked, .error .incomplete)
      | e :: rest =>
          match dispatchOne ctx e with
          | (c, .error err) => (c, invoked + 1, .error err)
          | (c, .ok out) =>
              match out with
              | .output o => (c, invoked + 1, .ok o)
              | _ => runLoop fuel c (rest ++ [out]) (invoked + 1)

/-- Modelled from the spec: `start_run` for the calculator workflow —
allocate a fresh context and drive the dispatch loop from the single start
event. -/
def startRun (fuel : Nat) (inp : CalculatorInput) :
    Ctx × Nat × Except RunError CalculatorOutput :=
  runLoop fuel Ctx.empty [WfEvent.input inp] 0

/-- One item observable by the caller on a run's stream: a progress event,
the final stop-event payload, or an error descriptor. -/
inductive StreamItem where
  | progress (p : ProgressEvent)
  | final (o : CalculatorOutput)
  | failed (e : RunError)
  deriving DecidableEq

/-- Modelled from the spec: the full sequence a caller observes for one run
(section 5 and section 6) — the progress events in emission order,
terminated by the stop event's payload or by an error descriptor. -/
def observableStream (fuel : Nat) (inp : CalculatorInput) : List StreamItem :=
  let r := startRun fuel inp
  match r.2.2 with
  | .ok o => r.1.stream.map StreamItem.progress ++ [StreamItem.final o]
  | .error e => r.1.stream.map StreamItem.progress ++ [StreamItem.failed e]

/-- A topological rank on event kinds, witnessing that the calculator's
event graph is acyclic. -/
def kindRank : EventKind → Nat
  | .calculatorInput => 0
  | .calculateRequest => 1
  | .calculateResponse => 2
  | .calculatorOutput => 3

/-- The progress event written by `initialize`. -/
def startProgress : ProgressEvent := ⟨"start", 10, "Starting sum workflow"⟩

/-- The progress event written by `sum`. -/
def calcProgress : ProgressEvent := ⟨"calculate", 50, "Calculating result"⟩

/-! ## Helper lemmas shared across the verification -/

/-- Evaluation of a full calculator run with fuel `m + 3`: the failing
divide-by-zero path performs two step invocations, every other path
performs three and completes with the computed result; both paths write
the same two progress events. -/
theorem runLoop_eval (m : Nat) (inp : CalculatorInput) :
    runLoop (m + 3) Ctx.empty [WfEvent.input inp] 0 =
      if inp.operation = Operation.DIVIDE ∧ inp.b = 0 then
        (⟨[startProgress, calcProgress], []⟩, 2,
          .error (.stepFailure zeroDivErr))
      else
        (⟨[startProgress, calcProgress], []⟩, 3,
          .ok ⟨calcResult inp.a inp.b inp.operation⟩) := by
  obtain ⟨a, b, op⟩ := inp
  have h3 : m + 3 = Nat.succ (m + 2) := rfl
  have h2 : m + 2 = Nat.succ (m + 1) := rfl
  have h1 : m + 1 = Nat.succ m := rfl
  rw [h3]
  cases op <;>
    simp only [runLoop, dispatchOne, CalculatorWorkflow.initializeStep,
      CalculatorWorkflow.sumStep, CalculatorWorkflow.finalizeStep,
      WfEvent.kind, Ctx.writeEventToStream, Ctx.empty, calcResult,
      startProgress, calcProgress, List.nil_append, List.append_nil,
      if_true, reduceIte, h2, h1] <;>
    simp [runLoop, dispatchOne, CalculatorWorkflow.finalizeStep, WfEvent.kind,
      h1, calcProgress, startProgress]
  by_cases hb : b = 0 <;>
    simp [hb, h2, h1, runLoop, dispatchOne, CalculatorWorkflow.finalizeStep,
      WfEvent.kind]

/-- Dispatching one event never touches the run-scoped key/value state. -/
theorem dispatchOne_kv (ctx : Ctx) (e : WfEvent) :
    (dispatchOne ctx e).1.kv = ctx.kv := by
  cases e with
  | input iv =>
      simp [dispatchOne, CalculatorWorkflow.initializeStep, WfEvent.kind,
        Ctx.writeEventToStream]
  | request rv =>
      obtain ⟨a, b, op⟩ := rv
      cases op <;>
        simp [dispatchOne, CalculatorWorkflow.sumStep, WfEvent.kind,
          Ctx.writeEventToStream]
      by_cases hb : b = 0 <;> simp [hb, WfEvent.kind]
  | response sv =>
      simp [dispatchOne, CalculatorWorkflow.finalizeStep, WfEvent.kind]
  | output o => simp [dispatchOne]

/-- The dispatch loop never touches the run-scoped key/value state. -/
theorem runLoop_kv (fuel : Nat) : ∀ (ctx : Ctx) (pending : List WfEvent)
    (invoked : Nat), (runLoop fuel ctx pending invoked).1.kv = ctx.kv := by
  induction fuel with
  | zero => intro ctx pending invoked; simp [runLoop]
  | succ n ih =>
      intro ctx pending invoked
      cases pending with
      | nil => simp [runLoop]
      | cons e rest =>
          simp only [runLoop]
          rcases hd : dispatchOne ctx e with ⟨c, r⟩
          have hkv : c.kv = ctx.kv := by
            have := dispatchOne_kv ctx e
            rw [hd] at this
            exact this
          cases r with
          | error err => simpa using hkv
          | ok out =>
              cases out with
              | input iv => simpa using (ih c (rest ++ [.input iv]) _).trans hkv
              | request rv =>
                  simpa using (ih c (rest ++ [.request rv]) _).trans hkv
              | response sv =>
                  simpa using (ih c (rest ++ [.response sv]) _).trans hkv
              | output o => simpa using hkv

/-- Dispatching one event never produces a contract-violation error: every
step of the calculator constructs an event of its declared output kind. -/
theorem dispatchOne_no_contract_violation (ctx : Ctx) (e : WfEvent)
    (k₁ k₂ : EventKind) :
    (dispatchOne ctx e).2 ≠ Except.error (RunError.contractViolation k₁ k₂) := by
  cases e with
  | input iv =>
      simp [dispatchOne, CalculatorWorkflow.initializeStep, WfEvent.kind]
  | request rv =>
      obtain ⟨a, b, op⟩ := rv
      cases op <;>
        simp [dispatchOne, CalculatorWorkflow.sumStep, WfEvent.kind]
      by_cases hb : b = 0 <;> simp [hb, WfEvent.kind]
  | response sv =>
      simp [dispatchOne, CalculatorWorkflow.finalizeStep, WfEvent.kind]
  | output o => simp [dispatchOne]

/-- No run of the calculator workflow, from any state and with any fuel,
fails with a contract-violation error. -/
theorem runLoop_no_contract_violation (fuel : Nat) : ∀ (ctx : Ctx)
    (pending : List WfEvent) (invoked : Nat) (k₁ k₂ : EventKind),
    (runLoop fuel ctx pending invoked).2.2 ≠
      Except.error (RunError.contractViolation k₁ k₂) := by
  induction fuel with
  | zero => intro ctx pending invoked k₁ k₂; simp [runLoop]
  | succ n ih =>
      intro ctx pending invoked k₁ k₂
      cases pending with
      | nil => simp [runLoop]
      | cons e rest =>
          simp only [runLoop]
          rcases hd : dispatchOne ctx e with ⟨c, r⟩
          have hnc := dispatchOne_no_contract_violation ctx e k₁ k₂
          rw [hd] at hnc
          cases r with
          | error err =>
              simpa using fun hcv => hnc (by rw [hcv])
          | ok out =>
              cases out with
              | input iv => simpa using ih c (rest ++ [.input iv]) _ k₁ k₂
              | request rv => simpa using ih c (rest ++ [.request rv]) _ k₁ k₂
              | response sv => simpa using ih c (rest ++ [.response sv]) _ k₁ k₂
              | output o => simp

/-! ## C1, C2: the calculator scenarios -/

/-- C1 (amended): running the workflow registered as "calculator" on the
start event with a = 6, b = 3, operation "divide" completes with the final
result whose payload is `results = 2` (the stop event's only field is named
`results`, not `result`): the sum step computes 6 / 3 = 2 and the finalize
step wraps that value in the stop event returned to the caller. -/
theorem C1_calculator_divide (fuel : Nat) (h : 3 ≤ fuel) :
    ∃ o : CalculatorOutput,
      (startRun fuel ⟨6, 3, Operation.DIVIDE⟩).2.2 = Except.ok o ∧
      o.results = 2 ∧
      CalculatorOutput.payload o = [("results", (2 : ℚ))] ∧
      (CalculatorWorkflow.sumStep Ctx.empty ⟨6, 3, Operation.DIVIDE⟩).2 =
        Except.ok (WfEvent.response ⟨2⟩) ∧
      CalculatorWorkflow.finalizeStep Ctx.empty ⟨2⟩ =
        (Ctx.empty, WfEvent.output ⟨2⟩) ∧
      Operation.value Operation.DIVIDE = "divide" := by
  obtain ⟨m, rfl⟩ := Nat.exists_eq_add_of_le' h
  refine ⟨⟨2⟩, ?_, rfl, rfl, ?_, rfl, rfl⟩
  · rw [startRun, runLoop_eval]
    norm_num [calcResult]
  · simp only [CalculatorWorkflow.sumStep]
    norm_num

/-- C1 witness: the divide scenario at the minimal sufficient fuel. -/
theorem C1_witness :
    ∃ o : CalculatorOutput,
      (startRun 3 ⟨6, 3, Operation.DIVIDE⟩).2.2 = Except.ok o ∧
      o.results = 2 ∧
      CalculatorOutput.payload o = [("results", (2 : ℚ))] ∧
      (CalculatorWorkflow.sumStep Ctx.empty ⟨6, 3, Operation.DIVIDE⟩).2 =
        Except.ok (WfEvent.response ⟨2⟩) ∧
      CalculatorWorkflow.finalizeStep Ctx.empty ⟨2⟩ =
        (Ctx.empty, WfEvent.output ⟨2⟩) ∧
      Operation.value Operation.DIVIDE = "divide" :=
  C1_calculator_divide 3 (by decide)

/-- C1 counterexample: the claim as stated names the result field `result`,
but the completed run's stop-event payload is keyed "results". -/
theorem C1_counterexample :
    ∃ o : CalculatorOutput,
      (startRun 3 ⟨6, 3, Operation.DIVIDE⟩).2.2 = Except.ok o ∧
      CalculatorOutput.payload o ≠ [("result", (2 : ℚ))] := by
  refine ⟨⟨2⟩, ?_, by decide⟩
  have h := runLoop_eval 0 ⟨6, 3, Operation.DIVIDE⟩
  rw [startRun]
  norm_num at h
  rw [h]
  norm_num [calcResult]

/-- C2 (amended): running the "calculator" workflow on the start event with
a = 6, b = 3, operation "multiply" completes with final payload
`results = 18`, and with operation "subtract" it completes with final
payload `results = 3` (the stop event's only field is named `results`, not
`result`). -/
theorem C2_calculator_multiply_subtract (fuel : Nat) (h : 3 ≤ fuel) :
    (∃ o : CalculatorOutput,
      (startRun fuel ⟨6, 3, Operation.MULTIPLY⟩).2.2 = Except.ok o ∧
      o.results = 18 ∧
      CalculatorOutput.payload o = [("results", (18 : ℚ))]) ∧
    (∃ o : CalculatorOutput,
      (startRun fuel ⟨6, 3, Operation.SUBTRACT⟩).2.2 = Except.ok o ∧
      o.results = 3 ∧
      CalculatorOutput.payload o = [("results", (3 : ℚ))]) := by
  obtain ⟨m, rfl⟩ := Nat.exists_eq_add_of_le' h
  constructor
  · refine ⟨⟨18⟩, ?_, rfl, rfl⟩
    rw [startRun, runLoop_eval]
    norm_num [calcResult]
  · refine ⟨⟨3⟩, ?_, rfl, rfl⟩
    rw [startRun, runLoop_eval]
    norm_num [calcResult]

/-- C2 witness: both scenarios at the minimal sufficient fuel. -/
theorem C2_witness :
    (∃ o : CalculatorOutput,
      (startRun 3 ⟨6, 3, Operation.MULTIPLY⟩).2.2 = Except.ok o ∧
      o.results = 18 ∧
      CalculatorOutput.payload o = [("results", (18 : ℚ))]) ∧
    (∃ o : CalculatorOutput,
      (startRun 3 ⟨6, 3, Operation.SUBTRACT⟩).2.2 = Except.ok o ∧
      o.results = 3 ∧
      CalculatorOutput.payload o = [("results", (3 : ℚ))]) :=
  C2_calculator_multiply_subtract 3 (by decide)

/-- C2 counterexample: on the multiply scenario the completed run's
stop-event payload is keyed "results", not "result" as the claim states. -/
theorem C2_counterexample :
    ∃ o : CalculatorOutput,
      (startRun 3 ⟨6, 3, Operation.MULTIPLY⟩).2.2 = Except.ok o ∧
      CalculatorOutput.payload o ≠ [("result", (18 : ℚ))] := by
  refine ⟨⟨18⟩, ?_, by decide⟩
  have h := runLoop_eval 0 ⟨6, 3, Operation.MULTIPLY⟩
  rw [startRun]
  norm_num at h
  rw [h]
  norm_num [calcResult]

/-! ## C3: step output contracts -/

/-- C3 (amended): every step of CalculatorWorkflow that returns normally
returns exactly one event of its declared output kind — initialize always
returns a CalculateRequestEvent, finalize always returns a
CalculatorOutput, and sum returns a CalculateResponseEvent whenever it
returns at all (it raises instead of returning on divide-by-zero) — so no
run of this workflow ever fails with a contract-violation error. -/
theorem C3_no_contract_violation :
    (∀ ctx iv, (CalculatorWorkflow.initializeStep ctx iv).2.kind =
       EventKind.calculateRequest) ∧
    (∀ ctx rv out, (CalculatorWorkflow.sumStep ctx rv).2 = Except.ok out →
       out.kind = EventKind.calculateResponse) ∧
    (∀ ctx sv, (CalculatorWorkflow.finalizeStep ctx sv).2.kind =
       EventKind.calculatorOutput) ∧
    (∀ fuel inp k₁ k₂, (startRun fuel inp).2.2 ≠
       Except.error (RunError.contractViolation k₁ k₂)) := by
  refine ⟨fun ctx iv => rfl, ?_, fun ctx sv => rfl, ?_⟩
  · intro ctx rv out h
    obtain ⟨a, b, op⟩ := rv
    cases op
    case SUM => simp [CalculatorWorkflow.sumStep] at h; subst h; rfl
    case SUBTRACT => simp [CalculatorWorkflow.sumStep] at h; subst h; rfl
    case MULTIPLY => simp [CalculatorWorkflow.sumStep] at h; subst h; rfl
    case DIVIDE =>
      by_cases hb : b = 0
      · simp [CalculatorWorkflow.sumStep, hb] at h
      · simp [CalculatorWorkflow.sumStep, hb] at h; subst h; rfl
  · intro fuel inp k₁ k₂
    exact runLoop_no_contract_violation fuel Ctx.empty [WfEvent.input inp] 0
      k₁ k₂

/-- C3 witness: the sum step on the concrete request (6, 3, sum) returns
the event CalculateResponseEvent(result=9), whose kind is the declared
output kind. -/
theorem C3_witness :
    (WfEvent.response ⟨9⟩).kind = EventKind.calculateResponse :=
  C3_no_contract_violation.2.1 Ctx.empty ⟨6, 3, Operation.SUM⟩
    (WfEvent.response ⟨9⟩) (by norm_num [CalculatorWorkflow.sumStep])

/-- C3 counterexample: the claim as stated quantifies over every event of
the declared input kind, but on CalculateRequestEvent(a=1, b=0,
operation=divide) the sum step raises ZeroDivisionError and returns no
event at all. -/
theorem C3_counterexample :
    (CalculatorWorkflow.sumStep Ctx.empty ⟨1, 0, Operation.DIVIDE⟩).2 =
      Except.error zeroDivErr ∧
    ¬ ∃ out : WfEvent, (CalculatorWorkflow.sumStep Ctx.empty
        ⟨1, 0, Operation.DIVIDE⟩).2 = Except.ok out := by
  constructor
  · simp [CalculatorWorkflow.sumStep]
  · rintro ⟨out, h⟩
    simp [CalculatorWorkflow.sumStep] at h

/-! ## C4: construction-time validation -/

/-- C4: CalculatorWorkflow passes construction-time validation — the three
steps declare pairwise distinct input kinds (CalculatorInput,
CalculateRequestEvent, CalculateResponseEvent), exactly one start kind
(CalculatorInput) and exactly one stop kind (CalculatorOutput) exist, and
registration under the name "calculator" succeeds without an
ambiguous-dispatch error. -/
theorem C4_validation :
    validateWorkflow calculatorSteps allKinds = Except.ok () ∧
    calculatorSteps.map (fun s => s.inputKind) =
      [EventKind.calculatorInput, EventKind.calculateRequest,
       EventKind.calculateResponse] ∧
    (calculatorSteps.map (fun s => s.inputKind)).Nodup ∧
    allKinds.filter (fun k => isStartKind k) = [EventKind.calculatorInput] ∧
    allKinds.filter (fun k => isStopKind k) = [EventKind.calculatorOutput] ∧
    (∀ registry, addWorkflow registry "calculator" calculatorSteps allKinds =
      Except.ok (registry ++ [("calculator", calculatorSteps)])) := by
  refine ⟨rfl, rfl, by decide, rfl, rfl, fun registry => rfl⟩

/-! ## C5: termination of the dispatch loop -/

/-- C5 (amended): the calculator's event graph CalculatorInput →
CalculateRequestEvent → CalculateResponseEvent → CalculatorOutput is
acyclic (every step strictly increases the kind rank), and for any fuel
bound of at least 3 the dispatch loop of section 4.2 terminates on every
start event: a completing run performs exactly three step invocations; the
only failing runs are the divide-by-zero ones, which perform two
invocations and fail as an explicit step failure; no run hangs (the fuel
bound is never the cause of stopping) and no run fails with an
unroutable-event or incomplete-workflow error. -/
theorem C5_termination (inp : CalculatorInput) (fuel : Nat) (h : 3 ≤ fuel) :
    (∀ sd ∈ calculatorSteps, ∀ k ∈ sd.outputKinds,
      kindRank sd.inputKind < kindRank k) ∧
    (((startRun fuel inp).2.1 = 3 ∧
        ∃ o, (startRun fuel inp).2.2 = Except.ok o) ∨
     ((startRun fuel inp).2.1 = 2 ∧ inp.operation = Operation.DIVIDE ∧
        inp.b = 0 ∧
        (startRun fuel inp).2.2 =
          Except.error (RunError.stepFailure zeroDivErr))) ∧
    (∀ k, (startRun fuel inp).2.2 ≠ Except.error (RunError.unroutable k)) ∧
    (startRun fuel inp).2.2 ≠ Except.error RunError.incomplete ∧
    (startRun fuel inp).2.2 ≠ Except.error RunError.fuelExhausted := by
  obtain ⟨m, rfl⟩ := Nat.exists_eq_add_of_le' h
  have hev := runLoop_eval m inp
  simp only [startRun, hev]
  refine ⟨by decide, ?_, ?_, ?_, ?_⟩ <;>
    by_cases hc : inp.operation = Operation.DIVIDE ∧ inp.b = 0 <;>
    simp [hc]

/-- C5 witness: the amended termination statement at the concrete start
event (6, 3, divide) with the minimal sufficient fuel. -/
theorem C5_witness :
    (∀ sd ∈ calculatorSteps, ∀ k ∈ sd.outputKinds,
      kindRank sd.inputKind < kindRank k) ∧
    (((startRun 3 ⟨6, 3, Operation.DIVIDE⟩).2.1 = 3 ∧
        ∃ o, (startRun 3 ⟨6, 3, Operation.DIVIDE⟩).2.2 = Except.ok o) ∨
     ((startRun 3 ⟨6, 3, Operation.DIVIDE⟩).2.1 = 2 ∧
        (⟨6, 3, Operation.DIVIDE⟩ : CalculatorInput).operation =
          Operation.DIVIDE ∧
        (⟨6, 3, Operation.DIVIDE⟩ : CalculatorInput).b = 0 ∧
        (startRun 3 ⟨6, 3, Operation.DIVIDE⟩).2.2 =
          Except.error (RunError.stepFailure zeroDivErr))) ∧
    (∀ k, (startRun 3 ⟨6, 3, Operation.DIVIDE⟩).2.2 ≠
      Except.error (RunError.unroutable k)) ∧
    (startRun 3 ⟨6, 3, Operation.DIVIDE⟩).2.2 ≠
      Except.error RunError.incomplete ∧
    (startRun 3 ⟨6, 3, Operation.DIVIDE⟩).2.2 ≠
      Except.error RunError.fuelExhausted :=
  C5_termination ⟨6, 3, Operation.DIVIDE⟩ 3 (by decide)

/-- C5 counterexample: the claim as stated says every run performs exactly
three step invocations, but the run on the start event (1, 0, divide)
performs only two — initialize and the raising sum — before failing. -/
theorem C5_counterexample :
    (startRun 3 ⟨1, 0, Operation.DIVIDE⟩).2.1 = 2 ∧
    (startRun 3 ⟨1, 0, Operation.DIVIDE⟩).2.2 =
      Except.error (RunError.stepFailure zeroDivErr) := by
  have h := runLoop_eval 0 ⟨1, 0, Operation.DIVIDE⟩
  norm_num at h
  rw [startRun, h]
  norm_num

/-! ## C6: the progress stream -/

/-- C6: in every completing run of CalculatorWorkflow the progress stream
holds exactly two progress events in emission order — first
ProgressEvent(step="start", progress=10) written by initialize, then
ProgressEvent(step="calculate", progress=50) written by sum — and the
sequence observable by the caller ends with the final stop event, with no
progress event after it. -/
theorem C6_progress_stream (inp : CalculatorInput) (fuel : Nat)
    (o : CalculatorOutput) (h : 3 ≤ fuel)
    (hc : (startRun fuel inp).2.2 = Except.ok o) :
    (startRun fuel inp).1.stream = [startProgress, calcProgress] ∧
    observableStream fuel inp =
      [StreamItem.progress startProgress, StreamItem.progress calcProgress,
       StreamItem.final o] := by
  obtain ⟨m, rfl⟩ := Nat.exists_eq_add_of_le' h
  have hev := runLoop_eval m inp
  by_cases hcond : inp.operation = Operation.DIVIDE ∧ inp.b = 0
  · rw [startRun, hev] at hc
    simp [hcond] at hc
  · rw [startRun, hev] at hc
    simp [hcond] at hc
    subst hc
    constructor
    · rw [startRun, hev]
      simp [hcond]
    · simp [observableStream, startRun, hev, hcond]

/-- C6 witness: the completing run on (6, 3, sum) observes exactly the two
progress events followed by the final result 9. -/
theorem C6_witness :
    (startRun 3 ⟨6, 3, Operation.SUM⟩).1.stream =
      [startProgress, calcProgress] ∧
    observableStream 3 ⟨6, 3, Operation.SUM⟩ =
      [StreamItem.progress startProgress, StreamItem.progress calcProgress,
       StreamItem.final ⟨9⟩] :=
  C6_progress_stream ⟨6, 3, Operation.SUM⟩ 3 ⟨9⟩ (by decide) (by
    have h := runLoop_eval 0 ⟨6, 3, Operation.SUM⟩
    norm_num [calcResult] at h
    rw [startRun, h])

/-! ## C7: divide-by-zero error handling -/

/-- C7: when the sum step receives a request with operation divide and
b = 0, the step itself raises ZeroDivisionError, and the run fails as a
step-execution failure with the original cause preserved in the error
descriptor; on every request whose operation is one of the four Operation
members, with b ≠ 0 when the operation is divide, the sum step returns
normally. -/
theorem C7_divide_by_zero (ctx : Ctx) (a : Int) (fuel : Nat) (h : 3 ≤ fuel) :
    (CalculatorWorkflow.sumStep ctx ⟨a, 0, Operation.DIVIDE⟩).2 =
      Except.error zeroDivErr ∧
    zeroDivErr.cause = "ZeroDivisionError: division by zero" ∧
    (startRun fuel ⟨a, 0, Operation.DIVIDE⟩).2.2 =
      Except.error (RunError.stepFailure zeroDivErr) ∧
    (∀ rv : CalculateRequestEvent,
      (rv.operation = Operation.DIVIDE → rv.b ≠ 0) →
      ∃ out, (CalculatorWorkflow.sumStep ctx rv).2 = Except.ok out) := by
  obtain ⟨m, rfl⟩ := Nat.exists_eq_add_of_le' h
  refine ⟨by simp [CalculatorWorkflow.sumStep], rfl, ?_, ?_⟩
  · rw [startRun, runLoop_eval]
    simp
  · intro rv hrv
    obtain ⟨ra, rb, rop⟩ := rv
    cases rop
    case SUM => exact ⟨_, rfl⟩
    case SUBTRACT => exact ⟨_, rfl⟩
    case MULTIPLY => exact ⟨_, rfl⟩
    case DIVIDE =>
      have hb : rb ≠ 0 := hrv rfl
      exact ⟨WfEvent.response ⟨(ra : ℚ) / (rb : ℚ)⟩,
        by simp [CalculatorWorkflow.sumStep, hb]⟩

/-- C7 witness: the sum step returns normally on the concrete request
(7, 2, divide), whose divisor is nonzero. -/
theorem C7_witness :
    ∃ out, (CalculatorWorkflow.sumStep Ctx.empty
      ⟨7, 2, Operation.DIVIDE⟩).2 = Except.ok out :=
  (C7_divide_by_zero Ctx.empty 1 3 (by decide)).2.2.2
    ⟨7, 2, Operation.DIVIDE⟩ (by decide)

/-! ## C8: the undeclared operation field -/

/-- C8: the CalculateRequestEvent class declaration lists only the fields a
and b — "operation" is not among its declared fields — yet initialize
constructs the event with the caller's operation and a, b passed through
unchanged, and the arithmetic branch the sum step takes on that event is
exactly the caller-supplied operation. -/
theorem C8_undeclared_operation_field :
    CalculateRequestEvent.declaredFields = ["a", "b"] ∧
    "operation" ∉ CalculateRequestEvent.declaredFields ∧
    (∀ ctx inp, (CalculatorWorkflow.initializeStep ctx inp).2 =
      WfEvent.request ⟨inp.a, inp.b, inp.operation⟩) ∧
    (∀ (ctx : Ctx) (inp : CalculatorInput), (CalculatorWorkflow.sumStep ctx
        ⟨inp.a, inp.b, inp.operation⟩).2 =
      if inp.operation = Operation.DIVIDE ∧ inp.b = 0 then
        Except.error zeroDivErr
      else Except.ok (WfEvent.response
        ⟨calcResult inp.a inp.b inp.operation⟩)) := by
  refine ⟨rfl, by decide, fun ctx inp => rfl, ?_⟩
  intro ctx inp
  obtain ⟨a, b, op⟩ := inp
  cases op <;> simp [CalculatorWorkflow.sumStep, calcResult]
  by_cases hb : b = 0 <;> simp [hb]

/-- C8 witness: the request built by initialize from the start event
(6, 3, divide) carries the caller's values and operation. -/
theorem C8_witness :
    (CalculatorWorkflow.initializeStep Ctx.empty ⟨6, 3, Operation.DIVIDE⟩).2 =
      WfEvent.request ⟨6, 3, Operation.DIVIDE⟩ :=
  C8_undeclared_operation_field.2.2.1 Ctx.empty ⟨6, 3, Operation.DIVIDE⟩

/-! ## C9: no run-scoped state is used -/

/-- C9: no step of CalculatorWorkflow reads or writes the run-scoped
key/value state of the Context — each step invocation leaves the mapping
exactly as it found it, and over a whole run started from a fresh context
the mapping stays empty. -/
theorem C9_no_state_use :
    (∀ ctx iv, (CalculatorWorkflow.initializeStep ctx iv).1.kv = ctx.kv) ∧
    (∀ ctx rv, (CalculatorWorkflow.sumStep ctx rv).1.kv = ctx.kv) ∧
    (∀ ctx sv, (CalculatorWorkflow.finalizeStep ctx sv).1.kv = ctx.kv) ∧
    (∀ fuel inp, (startRun fuel inp).1.kv = []) := by
  refine ⟨fun ctx iv => rfl, ?_, fun ctx sv => rfl, ?_⟩
  · intro ctx rv
    obtain ⟨a, b, op⟩ := rv
    cases op <;> simp [CalculatorWorkflow.sumStep, Ctx.writeEventToStream]
    by_cases hb : b = 0 <;> simp [hb]
  · intro fuel inp
    exact runLoop_kv fuel Ctx.empty [WfEvent.input inp] 0

/-! ## C10: true division versus the declared int field -/

/-- C10: the sum step uses Python true division for operation divide, so
for b ≠ 0 the computed value is the exact rational a / b, an integer
exactly when b divides a, even though the CalculateResponseEvent class
annotates its result field as int; at a = 7, b = 2 the step's computed
value 7 / 2 is not an integer. -/
theorem C10_true_division (ctx : Ctx) (a b : Int) (hb : b ≠ 0) :
    (CalculatorWorkflow.sumStep ctx ⟨a, b, Operation.DIVIDE⟩).2 =
      Except.ok (WfEvent.response ⟨(a : ℚ) / (b : ℚ)⟩) ∧
    ((∃ n : Int, (a : ℚ) / (b : ℚ) = (n : ℚ)) ↔ b ∣ a) ∧
    CalculateResponseEvent.declaredFields = [("result", "int")] ∧
    ¬ ∃ n : Int, (CalculatorWorkflow.sumStep ctx
        ⟨7, 2, Operation.DIVIDE⟩).2 =
      Except.ok (WfEvent.response ⟨(n : ℚ)⟩) := by
  have hbq : (b : ℚ) ≠ 0 := Int.cast_ne_zero.mpr hb
  refine ⟨by simp [CalculatorWorkflow.sumStep, hb], ?_, rfl, ?_⟩
  · constructor
    · rintro ⟨n, hn⟩
      rw [div_eq_iff hbq] at hn
      have han : a = n * b := by exact_mod_cast hn
      exact ⟨n, by linarith⟩
    · rintro ⟨c, hc⟩
      refine ⟨c, ?_⟩
      subst hc
      push_cast
      rw [mul_comm (b : ℚ) (c : ℚ), mul_div_assoc, div_self hbq, mul_one]
  · rintro ⟨n, hn⟩
    norm_num [CalculatorWorkflow.sumStep] at hn
    rw [div_eq_iff (by norm_num : (2 : ℚ) ≠ 0)] at hn
    have h7 : (7 : ℤ) = n * 2 := by exact_mod_cast hn
    omega

/-- C10 witness: the instantiation at the concrete request (7, 2, divide),
whose divisor 2 is nonzero and does not divide 7. -/
theorem C10_witness :
    (CalculatorWorkflow.sumStep Ctx.empty ⟨7, 2, Operation.DIVIDE⟩).2 =
      Except.ok (WfEvent.response ⟨(7 : ℚ) / (2 : ℚ)⟩) ∧
    ((∃ n : Int, ((7 : Int) : ℚ) / ((2 : Int) : ℚ) = (n : ℚ)) ↔
      (2 : Int) ∣ 7) ∧
    CalculateResponseEvent.declaredFields = [("result", "int")] ∧
    ¬ ∃ n : Int, (CalculatorWorkflow.sumStep Ctx.empty
        ⟨7, 2, Operation.DIVIDE⟩).2 =
      Except.ok (WfEvent.response ⟨(n : ℚ)⟩) := by
  have h := C10_true_division Ctx.empty 7 2 (by decide)
  norm_num at h ⊢
  exact h

end LlamaUI
